import Mathlib

/-!
Shallow embedding of the CKB network protocol-dispatch adapter and the
Identify handshake state machine
(`src/network/src/protocols/mod.rs`, `src/network/src/protocols/identify/mod.rs`).

Pure data is translated directly; stateful handler methods become functions
from an explicit state to a new state together with a list of `Effect`s
describing the calls made on the callback / network state / transport.
External collaborators (the tentacle `p2p` utilities `is_reachable`,
`multiaddr_to_socketaddr`, `extract_peer_id`, and the `NetworkState`
queries `is_feeler`, `local_peer_id`, `public_addrs`, `is_active`) are
modelled as an explicit environment `NetEnv` of abstract functions and data,
since the spec treats them only at their interface.
-/

namespace CkbNetwork

/-- Session identifier (`SessionId` from tentacle). -/
abbrev SessionId := Nat

/-- `SessionType` of a tentacle session: who initiated the connection. -/
inductive SessionType where
  | inbound
  | outbound
deriving DecidableEq, Repr

/-- `SessionType::is_outbound`. -/
def SessionType.is_outbound : SessionType → Bool
  | .outbound => true
  | .inbound => false

/-- `SessionType::is_inbound`. -/
def SessionType.is_inbound : SessionType → Bool
  | .inbound => true
  | .outbound => false

/-- One segment of a multiaddress (`p2p::multiaddr::Protocol`), reduced to the
segment kinds the identify code inspects: an IP component, a TCP port
component, a P2P peer-id component, and anything else. -/
inductive Proto where
  | ip (addr : Nat)
  | tcp (port : Nat)
  | p2p (peerId : String)
  | other (tag : Nat)
deriving DecidableEq, Repr

/-- A multiaddress is a sequence of protocol segments. -/
abbrev Multiaddr := List Proto

/-- A socket address extracted from a multiaddress. -/
structure SocketAddr where
  ip : Nat
  port : Nat
deriving DecidableEq, Repr

/-- First IP segment of a multiaddress, if any. -/
def findIp : Multiaddr → Option Nat
  | [] => none
  | .ip a :: _ => some a
  | _ :: rest => findIp rest

/-- First TCP segment of a multiaddress, if any. -/
def findTcp : Multiaddr → Option Nat
  | [] => none
  | .tcp p :: _ => some p
  | _ :: rest => findTcp rest

/-- Model of `p2p::utils::multiaddr_to_socketaddr`: succeeds when the
multiaddress carries an IP component and a TCP port component. -/
def multiaddr_to_socketaddr (addr : Multiaddr) : Option SocketAddr :=
  match findIp addr, findTcp addr with
  | some a, some p => some ⟨a, p⟩
  | _, _ => none

/-- Model of `p2p::utils::extract_peer_id`: the first P2P segment, if any. -/
def extract_peer_id : Multiaddr → Option String
  | [] => none
  | .p2p pid :: _ => some pid
  | _ :: rest => extract_peer_id rest

/-- `MAX_RETURN_LISTEN_ADDRS` (identify/mod.rs line 24). -/
def MAX_RETURN_LISTEN_ADDRS : Nat := 10

/-- `BAN_ON_NOT_SAME_NET` in seconds (identify/mod.rs line 25). -/
def BAN_ON_NOT_SAME_NET : Nat := 5 * 60

/-- `CHECK_TIMEOUT_INTERVAL` in seconds (identify/mod.rs line 28). -/
def CHECK_TIMEOUT_INTERVAL : Nat := 1

/-- `DEFAULT_TIMEOUT` in seconds (identify/mod.rs line 29). -/
def DEFAULT_TIMEOUT : Nat := 8

/-- `MAX_ADDRS` (identify/mod.rs line 30). -/
def MAX_ADDRS : Nat := 10

/-- `Misbehavior`: the misbehavior kinds reported to the callback. -/
inductive Misbehavior where
  | DuplicateReceived
  | Timeout
  | InvalidData
  | TooManyAddresses (count : Nat)
deriving DecidableEq, Repr

/-- `MisbehaveResult`: verdict returned by every policy check. -/
inductive MisbehaveResult where
  | Continue
  | Disconnect
deriving DecidableEq, Repr

/-- `MisbehaveResult::is_disconnect`. -/
def MisbehaveResult.is_disconnect : MisbehaveResult → Bool
  | .Disconnect => true
  | .Continue => false

/-- `Flags`: newtype over a `u64` capability bitmask. Bitwise `&` and `==`
on `u64` agree with `Nat` operations, so the value is carried as a `Nat`. -/
structure Flags where
  val : Nat
deriving DecidableEq, Repr

/-- `Flag::FullNode = 0x1`. -/
def Flag.FullNode : Nat := 0x1

/-- `Flags::contains`: `(self.0 & flags.0) == flags.0`. -/
def Flags.contains (self target : Flags) : Bool :=
  (self.val &&& target.val) == target.val

/-- The local `Identify` record: network name, capability flags, client
version (the cached `encode_data` is irrelevant to behavior). -/
structure Identify where
  name : String
  flags : Flags
  client_version : String
deriving DecidableEq, Repr

/-- Decoded view of the inner identify sub-message as seen through
`packed::IdentifyReader` (generated molecule code, external to `src/`):
`name`/`client_version` are `none` when the raw bytes are not valid UTF-8. -/
structure IdentifyReaderData where
  name : Option String
  flag : Nat
  client_version : Option String
deriving DecidableEq, Repr

/-- `Identify::verify` (identify/mod.rs lines 551-571).  The argument is
`none` when `IdentifyReader::from_slice` fails on the raw bytes. -/
def Identify.verify (self : Identify) (data : Option IdentifyReaderData) :
    Option (Flags × String) :=
  match data with
  | none => none
  | some reader =>
    match reader.name with
    | none => none
    | some name =>
      if self.name = name then
        if reader.flag = 0 then none
        else
          match reader.client_version with
          | none => none
          | some raw_client_version => some (⟨reader.flag⟩, raw_client_version)
      else none

/-- Abstract environment for the external collaborators consulted by the
identify callback: `p2p::utils::is_reachable` on an IP, the registry's
feeler query, the local peer id, and `NetworkState::public_addrs`. -/
structure NetEnv where
  is_reachable : Nat → Bool
  is_feeler : Multiaddr → Bool
  local_peer_id : String
  public_addrs : List Multiaddr

/-- Observable calls made by the identify handler on its callback, the
network state and the transport, recorded in program order. -/
inductive Effect where
  | misbehaveReport (sid : SessionId) (kind : Misbehavior)
  | disconnect (sid : SessionId)
  | banSession (sid : SessionId) (durationSecs : Nat) (reason : String)
  | registerClientVersion (sid : SessionId) (version : String)
  | openFeelerProtocol (sid : SessionId)
  | openAllProtocolsExceptFeeler (sid : SessionId)
  | registrySetListenAddrs (sid : SessionId) (addrs : List Multiaddr)
  | storeAddAddrs (addrs : List Multiaddr)
  | addObservedAddrs (addrs : List Multiaddr)
  | registerIdentify (sid : SessionId) (version : String)
  | quickSendIdentify (sid : SessionId) (listens : List Multiaddr) (observed : Multiaddr)
deriving DecidableEq, Repr

/-- `RemoteInfo` (identify/mod.rs lines 179-195): the per-session handshake
record; the held `SessionContext` is reduced to the session's type and
address; `Instant`/`Duration` are abstract ticks in seconds. -/
structure RemoteInfo where
  ty : SessionType
  address : Multiaddr
  connected_at : Nat
  timeout : Nat
  has_received : Bool
deriving DecidableEq, Repr

/-- `RemoteInfo::new`. -/
def RemoteInfo.new (ty : SessionType) (address : Multiaddr) (now : Nat)
    (timeout : Nat) : RemoteInfo :=
  { ty := ty, address := address, connected_at := now, timeout := timeout,
    has_received := false }

/-- State of `IdentifyProtocol`: the `remote_infos` map as an association
list plus the `global_ip_only` switch (`true` in `IdentifyProtocol::new`). -/
structure IdentifyProtocolState where
  remote_infos : List (SessionId × RemoteInfo)
  global_ip_only : Bool
deriving DecidableEq, Repr

/-- `HashMap::get` on `remote_infos`. -/
def findInfo : List (SessionId × RemoteInfo) → SessionId → Option RemoteInfo
  | [], _ => none
  | (k, v) :: rest, sid => if k = sid then some v else findInfo rest sid

/-- In-place update `info.has_received = true` for the entry keyed `sid`. -/
def setReceived (l : List (SessionId × RemoteInfo)) (sid : SessionId) :
    List (SessionId × RemoteInfo) :=
  l.map fun p => if p.1 = sid then (p.1, { p.2 with has_received := true }) else p

/-- `IdentifyCallback::misbehave` (identify/mod.rs lines 511-517): the
default policy logs the report and always answers `Disconnect`. -/
def IdentifyCallback.misbehave (sid : SessionId) (kind : Misbehavior) :
    MisbehaveResult × List Effect :=
  (.Disconnect, [.misbehaveReport sid kind])

/-- `IdentifyCallback::listen_addrs` (identify/mod.rs lines 343-349):
`public_addrs(MAX_RETURN_LISTEN_ADDRS * 2)` truncated to
`MAX_RETURN_LISTEN_ADDRS`. -/
def IdentifyCallback.listen_addrs (env : NetEnv) : List Multiaddr :=
  ((env.public_addrs.take (MAX_RETURN_LISTEN_ADDRS * 2)).take
    MAX_RETURN_LISTEN_ADDRS)

/-- The reachability filter applied to listen addresses
(identify/mod.rs lines 139-143): the address must parse to a socket address
and, under `global_ip_only`, its IP must be reachable. -/
def reachableFilter (env : NetEnv) (global_ip_only : Bool) (addr : Multiaddr) :
    Bool :=
  match multiaddr_to_socketaddr addr with
  | some socket_addr => !global_ip_only || env.is_reachable socket_addr.ip
  | none => false

/-- Replace every TCP segment's port (identify/mod.rs lines 497-503). -/
def substPort (addr : Multiaddr) (port : Nat) : Multiaddr :=
  addr.map fun p => match p with | .tcp _ => .tcp port | v => v

/-- The observed address with the local peer identity appended when it
carries none (identify/mod.rs lines 485-489). -/
def withPeerId (env : NetEnv) (addr : Multiaddr) : Multiaddr :=
  if (extract_peer_id addr).isNone then addr ++ [.p2p env.local_peer_id]
  else addr

/-- The candidate self-addresses derived from a kept observed address
(identify/mod.rs lines 491-504): one per local listen address that parses to
a socket address, obtained by substituting that listen port into the
observed address's TCP segment, plus the source observed address itself. -/
def observedCandidates (env : NetEnv) (addr : Multiaddr) : List Multiaddr :=
  (((IdentifyCallback.listen_addrs env).filterMap multiaddr_to_socketaddr).map
    fun socket_addr => substPort (withPeerId env addr) socket_addr.port) ++
    [withPeerId env addr]

/-- `IdentifyCallback::add_observed_addr` (identify/mod.rs lines 471-509). -/
def IdentifyCallback.add_observed_addr (env : NetEnv) (addr : Multiaddr)
    (ty : SessionType) : MisbehaveResult × List Effect :=
  if ty.is_inbound then
    (.Continue, [])
  else if !((multiaddr_to_socketaddr addr).map
      (fun socket_addr => env.is_reachable socket_addr.ip)).getD false then
    (.Continue, [])
  else
    (.Continue, [.addObservedAddrs (observedCandidates env addr)])

/-- `IdentifyCallback::received_identify` (identify/mod.rs lines 388-444). -/
def IdentifyCallback.received_identify (env : NetEnv) (idf : Identify)
    (sid : SessionId) (ty : SessionType) (sessionAddr : Multiaddr)
    (data : Option IdentifyReaderData) : MisbehaveResult × List Effect :=
  match idf.verify data with
  | none =>
    (.Disconnect,
      [.banSession sid BAN_ON_NOT_SAME_NET
        "The nodes are not on the same network"])
  | some (flags, client_version) =>
    if ty.is_outbound then
      if env.is_feeler sessionAddr then
        (.Continue, [.openFeelerProtocol sid])
      else if flags.contains idf.flags then
        (.Continue,
          [.registerClientVersion sid client_version,
           .openAllProtocolsExceptFeeler sid])
      else
        (.Disconnect, [])
    else
      (.Continue, [.registerClientVersion sid client_version])

/-- `IdentifyProtocol::check_duplicate` (identify/mod.rs lines 105-119);
`none` models the `expect("RemoteInfo must exists")` panic. -/
def check_duplicate (st : IdentifyProtocolState) (sid : SessionId) :
    Option (MisbehaveResult × List Effect × IdentifyProtocolState) :=
  match findInfo st.remote_infos sid with
  | none => none
  | some info =>
    if info.has_received then
      let (r, effs) := IdentifyCallback.misbehave sid .DuplicateReceived
      some (r, effs, st)
    else
      some (.Continue, [],
        { st with remote_infos := setReceived st.remote_infos sid })

/-- `IdentifyProtocol::process_listens` (identify/mod.rs lines 121-149),
inlining `IdentifyCallback::add_remote_listen_addrs` (lines 451-469), which
stores the filtered list in the peer registry and persists each address in
the peer store. -/
def process_listens (env : NetEnv) (st : IdentifyProtocolState)
    (sid : SessionId) (listens : List Multiaddr) :
    Option (MisbehaveResult × List Effect) :=
  match findInfo st.remote_infos sid with
  | none => none
  | some _info =>
    if listens.length > MAX_ADDRS then
      some (IdentifyCallback.misbehave sid (.TooManyAddresses listens.length))
    else
      let reachable_addrs := listens.filter (reachableFilter env st.global_ip_only)
      some (.Continue,
        [.registrySetListenAddrs sid reachable_addrs,
         .storeAddAddrs reachable_addrs])

/-- `IdentifyProtocol::process_observed` (identify/mod.rs lines 151-177). -/
def process_observed (env : NetEnv) (st : IdentifyProtocolState)
    (sid : SessionId) (observed : Multiaddr) :
    Option (MisbehaveResult × List Effect) :=
  match findInfo st.remote_infos sid with
  | none => none
  | some info =>
    match multiaddr_to_socketaddr observed with
    | none => some (.Continue, [])
    | some socket_addr =>
      if !st.global_ip_only || env.is_reachable socket_addr.ip then
        some (IdentifyCallback.add_observed_addr env observed info.ty)
      else
        some (.Continue, [])

/-- The decoded outer wire message (`IdentifyMessage`, identify/protocol.rs):
listen addresses, observed address, and the raw inner identify bytes, kept
here in their decoded-reader view. -/
structure IdentifyMessage where
  listen_addrs : List Multiaddr
  observed_addr : Multiaddr
  identify : Option IdentifyReaderData
deriving DecidableEq, Repr

/-- The disconnect request the `received` handler issues after a check whose
verdict is `Disconnect` (identify/mod.rs lines 259-293). -/
def discIf (r : MisbehaveResult) (sid : SessionId) : List Effect :=
  if r.is_disconnect then [.disconnect sid] else []

/-- `IdentifyProtocol::received` (identify/mod.rs lines 249-309).  The
`data` argument is `none` when `IdentifyMessage::decode` fails; `ty` and
`address` are the session context's type and address.  The result is `none`
exactly when the Rust code would panic on a missing `RemoteInfo`. -/
def IdentifyProtocol.received (env : NetEnv) (idf : Identify)
    (st : IdentifyProtocolState) (sid : SessionId) (ty : SessionType)
    (address : Multiaddr) (data : Option IdentifyMessage) :
    Option (IdentifyProtocolState × List Effect) :=
  match data with
  | some message =>
    match check_duplicate st sid with
    | none => none
    | some (r1, e1, st1) =>
      let (r2, e2) :=
        IdentifyCallback.received_identify env idf sid ty address
          message.identify
      match process_listens env st1 sid message.listen_addrs with
      | none => none
      | some (r3, e3) =>
        match process_observed env st1 sid message.observed_addr with
        | none => none
        | some (r4, e4) =>
          some (st1,
            e1 ++ discIf r1 sid ++ e2 ++ discIf r2 sid ++
            e3 ++ discIf r3 sid ++ e4 ++ discIf r4 sid)
  | none =>
    match findInfo st.remote_infos sid with
    | none => none
    | some _info =>
      let (r, e) := IdentifyCallback.misbehave sid .InvalidData
      some (st, e ++ discIf r sid)

/-- `IdentifyProtocol::notify` (identify/mod.rs lines 311-320): the
one-second sweep over all `remote_infos`; `now` is the current instant in
the same abstract clock as `connected_at`. -/
def IdentifyProtocol.notify (st : IdentifyProtocolState) (now : Nat) :
    List Effect :=
  st.remote_infos.flatMap fun p =>
    if !p.2.has_received && decide (p.2.connected_at + p.2.timeout ≤ now) then
      let (r, e) := IdentifyCallback.misbehave p.1 .Timeout
      e ++ (if r.is_disconnect then [.disconnect p.1] else [])
    else []

/-- `IdentifyProtocol::connected` (identify/mod.rs lines 209-236), with
`IdentifyCallback::register` reduced to the `registerIdentify` effect.  The
new `RemoteInfo` is inserted with `DEFAULT_TIMEOUT`; the outbound identify
message advertises the reachability-filtered first `MAX_ADDRS` local listen
addresses and the session's own address as its observed address. -/
def IdentifyProtocol.connected (env : NetEnv)
    (st : IdentifyProtocolState) (sid : SessionId) (ty : SessionType)
    (address : Multiaddr) (now : Nat) (version : String) :
    IdentifyProtocolState × List Effect :=
  let remote_info := RemoteInfo.new ty address now DEFAULT_TIMEOUT
  let st1 :=
    { st with remote_infos := (sid, remote_info) ::
        st.remote_infos.filter fun p => p.1 ≠ sid }
  let listen_addrs :=
    ((IdentifyCallback.listen_addrs env).filter
      (reachableFilter env st.global_ip_only)).take MAX_ADDRS
  (st1,
    [.registerIdentify sid version, .quickSendIdentify sid listen_addrs address])

/-! ### Protocol dispatch adapter (`src/network/src/protocols/mod.rs`) -/

/-- Observable actions of `CKBHandler`: the peer registry's per-session
protocol-version bookkeeping and the forwarding of each event to the inner
`CKBProtocolHandler`. -/
inductive DispatchEffect where
  | registryInsertProtocolVersion (sid : SessionId) (protoId : Nat) (version : String)
  | registryRemoveProtocolVersion (sid : SessionId) (protoId : Nat)
  | forwardConnected (sid : SessionId) (version : String)
  | forwardDisconnected (sid : SessionId)
  | forwardReceived (sid : SessionId)
  | forwardNotify (token : Nat)
  | forwardPoll
deriving DecidableEq, Repr

/-- `CKBHandler::connected` (protocols/mod.rs lines 246-264): unconditional
registry insert, then forwarding gated on `NetworkState::is_active`. -/
def CKBHandler.connected (isActive : Bool) (protoId : Nat) (sid : SessionId)
    (version : String) : List DispatchEffect :=
  [.registryInsertProtocolVersion sid protoId version] ++
    (if isActive then [.forwardConnected sid version] else [])

/-- `CKBHandler::disconnected` (protocols/mod.rs lines 266-284):
unconditional registry remove, then gated forwarding. -/
def CKBHandler.disconnected (isActive : Bool) (protoId : Nat)
    (sid : SessionId) : List DispatchEffect :=
  [.registryRemoveProtocolVersion sid protoId] ++
    (if isActive then [.forwardDisconnected sid] else [])

/-- `CKBHandler::received` (protocols/mod.rs lines 286-304): forwarding
gated on `is_active`, no registry bookkeeping. -/
def CKBHandler.received (isActive : Bool) (sid : SessionId) :
    List DispatchEffect :=
  if isActive then [.forwardReceived sid] else []

/-- `CKBHandler::notify` (protocols/mod.rs lines 306-316): forwarding gated
on `is_active`. -/
def CKBHandler.notify (isActive : Bool) (token : Nat) : List DispatchEffect :=
  if isActive then [.forwardNotify token] else []

/-- `CKBHandler::poll` (protocols/mod.rs lines 318-329): always forwards to
the inner handler; the source performs no `is_active` check here, so the
argument is unused. -/
def CKBHandler.poll (_isActive : Bool) : List DispatchEffect :=
  [.forwardPoll]

/-! ### Concrete fixtures -/

/-- A concrete environment: IPs at or above 100 are reachable, no address is
a feeler, two public listen addresses are advertised. -/
def env0 : NetEnv where
  is_reachable := fun ip => decide (100 ≤ ip)
  is_feeler := fun _ => false
  local_peer_id := "QmLocalPeer"
  public_addrs := [[.ip 200, .tcp 8115], [.ip 201, .tcp 8116]]

/-- A concrete local identify record. -/
def idf0 : Identify :=
  { name := "/ckb/net", flags := ⟨1⟩, client_version := "0.100.0" }

/-- A concrete reachable remote session address. -/
def addr_remote : Multiaddr := [.ip 150, .tcp 9000]

/-- A fresh outbound session record (identify not yet received). -/
def info_fresh : RemoteInfo := RemoteInfo.new .outbound addr_remote 0 DEFAULT_TIMEOUT

/-- The same session after its first identify receipt. -/
def info_recvd : RemoteInfo := { info_fresh with has_received := true }

/-- Protocol state holding only the fresh session `7`. -/
def st_fresh : IdentifyProtocolState :=
  { remote_infos := [(7, info_fresh)], global_ip_only := true }

/-- Protocol state holding only the already-received session `7`. -/
def st_recvd : IdentifyProtocolState :=
  { remote_infos := [(7, info_recvd)], global_ip_only := true }

/-- Eleven distinct listen addresses (one more than `MAX_ADDRS`). -/
def listens11 : List Multiaddr :=
  (List.range 11).map fun i => [.ip (100 + i), .tcp (8000 + i)]

/-! ### Helper lemmas -/

/-- Bitwise containment of `b` in `a`, expressed through `testBit`. -/
theorem land_eq_self_iff (a b : Nat) :
    a &&& b = b ↔ ∀ i, b.testBit i = true → a.testBit i = true := by
  constructor
  · intro h i hb
    have ht : (a &&& b).testBit i = b.testBit i := by rw [h]
    rw [Nat.testBit_land, hb] at ht
    simpa using ht
  · intro h
    apply Nat.eq_of_testBit_eq
    intro i
    rw [Nat.testBit_land]
    cases hb : b.testBit i with
    | false => simp
    | true => simp [h i hb]

/-! ### Claims -/

/-- C9: for all capability flag values `a` and `b`, `a.contains b` holds iff
`(a & b) == b`, i.e. every bit set in `b` is set in `a`; the relation is
reflexive and transitive. -/
theorem claim_C9_flags_contains (a b c : Flags) :
    (a.contains b = true ↔ ∀ i, b.val.testBit i = true → a.val.testBit i = true) ∧
    a.contains a = true ∧
    (a.contains b = true → b.contains c = true → a.contains c = true) := by
  have key : ∀ x y : Flags, x.contains y = true ↔ x.val &&& y.val = y.val := by
    intro x y
    simp [Flags.contains]
  refine ⟨?_, ?_, ?_⟩
  · rw [key, land_eq_self_iff]
  · rw [key, land_eq_self_iff]
    exact fun i h => h
  · intro hab hbc
    rw [key, land_eq_self_iff] at hab hbc ⊢
    exact fun i hc => hab i (hbc i hc)

/-- Witness for C9: `contains` applied transitively at `7 ⊇ 5 ⊇ 4`. -/
theorem claim_C9_flags_contains_witness :
    Flags.contains ⟨7⟩ ⟨5⟩ = true ∧ Flags.contains ⟨5⟩ ⟨4⟩ = true ∧
    Flags.contains ⟨7⟩ ⟨4⟩ = true :=
  ⟨by decide, by decide,
    (claim_C9_flags_contains ⟨7⟩ ⟨5⟩ ⟨4⟩).2.2 (by decide) (by decide)⟩

/-- C8: identify verification returns `none` whenever the encoded network
name differs from the local name (whatever the flags and client version),
and whenever the encoded flags equal exactly `0`; a well-formed payload with
matching name and nonzero flags yields the decoded flags and client
version. -/
theorem claim_C8_verify (idf : Identify) (r : IdentifyReaderData) :
    (∀ nm, r.name = some nm → nm ≠ idf.name → idf.verify (some r) = none) ∧
    (r.flag = 0 → idf.verify (some r) = none) ∧
    (∀ nm cv, r.name = some nm → nm = idf.name → r.flag ≠ 0 →
      r.client_version = some cv → idf.verify (some r) = some (⟨r.flag⟩, cv)) := by
  refine ⟨?_, ?_, ?_⟩
  · intro nm hnm hne
    have hne' : ¬(idf.name = nm) := fun h => hne h.symm
    simp [Identify.verify, hnm, hne']
  · intro h0
    cases hn : r.name with
    | none => simp [Identify.verify, hn]
    | some nm =>
      by_cases he : idf.name = nm
      · simp [Identify.verify, hn, he, h0]
      · simp [Identify.verify, hn, he]
  · intro nm cv hnm hne h0 hcv
    simp [Identify.verify, hnm, hne.symm, h0, hcv]

/-- Witness for C8: the three verification branches at concrete payloads. -/
theorem claim_C8_verify_witness :
    Identify.verify idf0 (some ⟨some "/other/net", 1, some "v"⟩) = none ∧
    Identify.verify idf0 (some ⟨some "/ckb/net", 0, some "v"⟩) = none ∧
    Identify.verify idf0 (some ⟨some "/ckb/net", 1, some "v"⟩) = some (⟨1⟩, "v") :=
  ⟨(claim_C8_verify idf0 ⟨some "/other/net", 1, some "v"⟩).1 "/other/net" rfl
      (by decide),
   (claim_C8_verify idf0 ⟨some "/ckb/net", 0, some "v"⟩).2.1 rfl,
   (claim_C8_verify idf0 ⟨some "/ckb/net", 1, some "v"⟩).2.2 "/ckb/net" "v" rfl
      (by decide) (by decide) rfl⟩

/-- C3 counterexample: with the network process inactive, the adapter still
forwards the `poll` event to the inner handler, so "no handler forwarding
occurs for any of the events ... or poll" fails on `poll`. -/
theorem claim_C3_counterexample :
    DispatchEffect.forwardPoll ∈ CKBHandler.poll false := by
  decide

/-- C3 amended: on every `connected`/`disconnected` the adapter updates the
peer registry's per-session protocol-version map unconditionally; while the
network process is inactive, handler forwarding is skipped for `connected`,
`disconnected`, `received` and `notify`, but `poll` is forwarded to the
handler regardless of activity. -/
theorem claim_C3_dispatch_gating (protoId : Nat) (sid : SessionId)
    (version : String) (token : Nat) (active : Bool) :
    CKBHandler.connected false protoId sid version =
      [.registryInsertProtocolVersion sid protoId version] ∧
    CKBHandler.disconnected false protoId sid =
      [.registryRemoveProtocolVersion sid protoId] ∧
    CKBHandler.received false sid = [] ∧
    CKBHandler.notify false token = [] ∧
    CKBHandler.connected true protoId sid version =
      [.registryInsertProtocolVersion sid protoId version,
       .forwardConnected sid version] ∧
    CKBHandler.disconnected true protoId sid =
      [.registryRemoveProtocolVersion sid protoId, .forwardDisconnected sid] ∧
    CKBHandler.poll active = [.forwardPoll] :=
  ⟨rfl, rfl, rfl, rfl, rfl, rfl, rfl⟩

/-- C1 counterexample: a payload on the local network whose decoded
capability flags equal exactly `0` still gets the 5-minute
"not on the same network" ban — `Identify::verify` collapses the zero-flags
case into the same `None` that `received_identify` answers with a ban, so
the ban is not reserved for network-name mismatch. -/
theorem claim_C1_counterexample :
    Effect.banSession 7 BAN_ON_NOT_SAME_NET
        "The nodes are not on the same network" ∈
      (IdentifyCallback.received_identify env0 idf0 7 .outbound addr_remote
        (some ⟨some "/ckb/net", 0, some "0.99.0"⟩)).2 := by
  decide

/-- C1 amended: whenever identify verification fails — network-name
mismatch, capability flags exactly `0`, or a malformed identify sub-message
— the verdict is Disconnect and the 5-minute ban naming a different network
is applied to the session; when verification succeeds, no ban is ever
applied by this step. -/
theorem claim_C1_ban_on_verify_failure (env : NetEnv) (idf : Identify)
    (sid : SessionId) (ty : SessionType) (addr : Multiaddr)
    (data : Option IdentifyReaderData) :
    (idf.verify data = none →
      IdentifyCallback.received_identify env idf sid ty addr data =
        (.Disconnect,
          [.banSession sid BAN_ON_NOT_SAME_NET
            "The nodes are not on the same network"])) ∧
    (∀ out, idf.verify data = some out →
      ∀ d r, Effect.banSession sid d r ∉
        (IdentifyCallback.received_identify env idf sid ty addr data).2) := by
  constructor
  · intro h
    simp [IdentifyCallback.received_identify, h]
  · rintro ⟨flags, cv⟩ h d r
    unfold IdentifyCallback.received_identify
    rw [h]
    cases ty with
    | inbound => simp [SessionType.is_outbound]
    | outbound =>
      by_cases hf : env.is_feeler addr
      · simp [SessionType.is_outbound, hf]
      · by_cases hc : flags.contains idf.flags
        · simp [SessionType.is_outbound, hf, hc]
        · simp [SessionType.is_outbound, hf, hc]

/-- Witness for the amended C1: the zero-flags payload is disconnected and
banned. -/
theorem claim_C1_ban_on_verify_failure_witness :
    IdentifyCallback.received_identify env0 idf0 7 .outbound addr_remote
        (some ⟨some "/ckb/net", 0, some "0.99.0"⟩) =
      (.Disconnect,
        [.banSession 7 BAN_ON_NOT_SAME_NET
          "The nodes are not on the same network"]) :=
  (claim_C1_ban_on_verify_failure env0 idf0 7 .outbound addr_remote
    (some ⟨some "/ckb/net", 0, some "0.99.0"⟩)).1 (by decide)

/-- Lookup after `setReceived`: the entry keyed `sid` is the old entry with
`has_received` forced to `true`. -/
theorem findInfo_setReceived (l : List (SessionId × RemoteInfo)) (sid : SessionId) :
    findInfo (setReceived l sid) sid =
      (findInfo l sid).map fun i => { i with has_received := true } := by
  induction l with
  | nil => rfl
  | cons p t ih =>
    obtain ⟨k, v⟩ := p
    by_cases hp : k = sid
    · subst hp
      have hcons : setReceived ((k, v) :: t) k =
          (k, { v with has_received := true }) :: setReceived t k := by
        simp [setReceived]
      rw [hcons]
      simp [findInfo]
    · have hcons : setReceived ((k, v) :: t) sid = (k, v) :: setReceived t sid := by
        simp [setReceived, hp]
      rw [hcons]
      simp [findInfo, hp, ih]

/-- C7: the first identify payload on a session finds `has_received = false`,
yields Continue and sets the flag; any subsequent receipt on the same
session yields a DuplicateReceived misbehavior that the default policy
resolves as Disconnect. -/
theorem claim_C7_duplicate (st : IdentifyProtocolState) (sid : SessionId)
    (info : RemoteInfo) (h : findInfo st.remote_infos sid = some info) :
    (info.has_received = false →
      check_duplicate st sid =
        some (.Continue, [],
          { st with remote_infos := setReceived st.remote_infos sid }) ∧
      findInfo (setReceived st.remote_infos sid) sid =
        some { info with has_received := true } ∧
      check_duplicate
          { st with remote_infos := setReceived st.remote_infos sid } sid =
        some (.Disconnect, [.misbehaveReport sid .DuplicateReceived],
          { st with remote_infos := setReceived st.remote_infos sid })) ∧
    (info.has_received = true →
      check_duplicate st sid =
        some (.Disconnect, [.misbehaveReport sid .DuplicateReceived], st)) := by
  constructor
  · intro hf
    refine ⟨?_, ?_, ?_⟩
    · simp [check_duplicate, h, hf]
    · rw [findInfo_setReceived, h]
      rfl
    · simp [check_duplicate, findInfo_setReceived, h,
        IdentifyCallback.misbehave]
  · intro ht
    simp [check_duplicate, h, ht, IdentifyCallback.misbehave]

/-- Witness for C7: both receipts on session `7`, starting from the fresh
state. -/
theorem claim_C7_duplicate_witness :
    check_duplicate st_fresh 7 =
      some (.Continue, [],
        { st_fresh with remote_infos := setReceived st_fresh.remote_infos 7 }) ∧
    check_duplicate
        { st_fresh with remote_infos := setReceived st_fresh.remote_infos 7 } 7 =
      some (.Disconnect, [.misbehaveReport 7 .DuplicateReceived],
        { st_fresh with remote_infos := setReceived st_fresh.remote_infos 7 }) := by
  have h := (claim_C7_duplicate st_fresh 7 info_fresh (by decide)).1 (by decide)
  exact ⟨h.1, h.2.2⟩

/-- C6: a listen-address list larger than the cap of 10 yields a
TooManyAddresses misbehavior carrying the list's size, which the default
policy resolves as Disconnect; a list within the cap yields Continue and
hands the reachability-filtered list to the peer registry and the peer
store. -/
theorem claim_C6_listens (env : NetEnv) (st : IdentifyProtocolState)
    (sid : SessionId) (info : RemoteInfo) (listens : List Multiaddr)
    (h : findInfo st.remote_infos sid = some info) :
    (listens.length > MAX_ADDRS →
      process_listens env st sid listens =
        some (.Disconnect,
          [.misbehaveReport sid (.TooManyAddresses listens.length)])) ∧
    (listens.length ≤ MAX_ADDRS →
      process_listens env st sid listens =
        some (.Continue,
          [.registrySetListenAddrs sid
            (listens.filter (reachableFilter env st.global_ip_only)),
           .storeAddAddrs
            (listens.filter (reachableFilter env st.global_ip_only))])) ∧
    MAX_ADDRS = 10 := by
  refine ⟨?_, ?_, rfl⟩
  · intro hlen
    simp [process_listens, h, hlen, IdentifyCallback.misbehave]
  · intro hlen
    simp [process_listens, h, Nat.not_lt.mpr hlen]

/-- Witness for C6: 11 listen addresses are rejected with
`TooManyAddresses 11`, while their first 10 are accepted and filtered. -/
theorem claim_C6_listens_witness :
    process_listens env0 st_fresh 7 listens11 =
      some (.Disconnect, [.misbehaveReport 7 (.TooManyAddresses 11)]) ∧
    process_listens env0 st_fresh 7 (listens11.take 10) =
      some (.Continue,
        [.registrySetListenAddrs 7
          ((listens11.take 10).filter (reachableFilter env0 true)),
         .storeAddAddrs
          ((listens11.take 10).filter (reachableFilter env0 true))]) := by
  have hbig :=
    (claim_C6_listens env0 st_fresh 7 info_fresh listens11 (by decide)).1
      (by decide)
  have hok :=
    ((claim_C6_listens env0 st_fresh 7 info_fresh (listens11.take 10)
      (by decide)).2.1) (by decide)
  have hlen : listens11.length = 11 := by decide
  rw [hlen] at hbig
  exact ⟨hbig, hok⟩

/-- `add_observed_addr` either drops the address or feeds exactly the
derived candidate list to the discovery pool, always with verdict
Continue. -/
theorem add_observed_addr_cases (env : NetEnv) (addr : Multiaddr)
    (ty : SessionType) :
    IdentifyCallback.add_observed_addr env addr ty = (.Continue, []) ∨
    IdentifyCallback.add_observed_addr env addr ty =
      (.Continue, [.addObservedAddrs (observedCandidates env addr)]) := by
  unfold IdentifyCallback.add_observed_addr
  by_cases h1 : ty.is_inbound = true
  · left
    simp [h1]
  · cases h2 : ((multiaddr_to_socketaddr addr).map
        fun socket_addr => env.is_reachable socket_addr.ip).getD false
    · left
      simp [h1, h2]
    · right
      simp [h1, h2]

/-- C4: an inbound session's observed address is never fed to the
address-discovery pool; an outbound observed address whose IP is not
reachable is dropped; an outbound reachable observed address (peer identity
appended when missing) contributes one candidate per parseable local listen
address — the listen port substituted into the observed address's TCP
segment — plus the raw observed address; and the step always returns
Continue. -/
theorem claim_C4_observed (env : NetEnv) (st : IdentifyProtocolState)
    (sid : SessionId) (info : RemoteInfo) (observed : Multiaddr)
    (h : findInfo st.remote_infos sid = some info) :
    (∀ r effs, process_observed env st sid observed = some (r, effs) →
      r = .Continue) ∧
    (info.ty = .inbound →
      ∀ r effs, process_observed env st sid observed = some (r, effs) →
        ∀ addrs, Effect.addObservedAddrs addrs ∉ effs) ∧
    ((∀ sa, multiaddr_to_socketaddr observed = some sa →
        env.is_reachable sa.ip = false) →
      ∀ r effs, process_observed env st sid observed = some (r, effs) →
        ∀ addrs, Effect.addObservedAddrs addrs ∉ effs) ∧
    (∀ sa, info.ty = .outbound → multiaddr_to_socketaddr observed = some sa →
      env.is_reachable sa.ip = true →
      process_observed env st sid observed =
        some (.Continue,
          [.addObservedAddrs (observedCandidates env observed)])) ∧
    (observedCandidates env observed).length =
      ((IdentifyCallback.listen_addrs env).filterMap
        multiaddr_to_socketaddr).length + 1 := by
  refine ⟨?_, ?_, ?_, ?_, ?_⟩
  · intro r effs hpo
    unfold process_observed at hpo
    rw [h] at hpo
    cases hma : multiaddr_to_socketaddr observed with
    | none =>
      rw [hma] at hpo
      simp at hpo
      exact hpo.1.symm
    | some sa =>
      rw [hma] at hpo
      by_cases hg : (!st.global_ip_only || env.is_reachable sa.ip) = true
      · simp only [hg, if_true] at hpo
        rcases add_observed_addr_cases env observed info.ty with hc | hc <;>
          rw [hc] at hpo <;> simp at hpo <;> exact hpo.1.symm
      · simp [hg] at hpo
        exact hpo.1.symm
  · intro hin r effs hpo addrs
    unfold process_observed at hpo
    rw [h] at hpo
    cases hma : multiaddr_to_socketaddr observed with
    | none =>
      rw [hma] at hpo
      simp at hpo
      rw [hpo.2]
      simp
    | some sa =>
      rw [hma] at hpo
      by_cases hg : (!st.global_ip_only || env.is_reachable sa.ip) = true
      · simp [hg, hin, IdentifyCallback.add_observed_addr,
          SessionType.is_inbound] at hpo
        rw [hpo.2]
        simp
      · simp [hg] at hpo
        rw [hpo.2]
        simp
  · intro hur r effs hpo addrs
    unfold process_observed at hpo
    rw [h] at hpo
    cases hma : multiaddr_to_socketaddr observed with
    | none =>
      rw [hma] at hpo
      simp at hpo
      rw [hpo.2]
      simp
    | some sa =>
      have hr := hur sa hma
      rw [hma] at hpo
      by_cases hg : (!st.global_ip_only || env.is_reachable sa.ip) = true
      · cases hty : info.ty <;>
          simp [hg, hty, IdentifyCallback.add_observed_addr, hma, hr,
            SessionType.is_inbound] at hpo <;>
          (rw [hpo.2]; simp)
      · simp [hg] at hpo
        rw [hpo.2]
        simp
  · intro sa hout hma hr
    have hg : (!st.global_ip_only || env.is_reachable sa.ip) = true := by
      simp [hr]
    simp [process_observed, h, hma, hg, hout,
      IdentifyCallback.add_observed_addr, SessionType.is_inbound, hr]
  · simp [observedCandidates]

/-- Witness for C4: the outbound reachable observed address of session `7`
is expanded into the candidate list. -/
theorem claim_C4_observed_witness :
    process_observed env0 st_fresh 7 addr_remote =
      some (.Continue,
        [.addObservedAddrs (observedCandidates env0 addr_remote)]) :=
  (claim_C4_observed env0 st_fresh 7 info_fresh addr_remote
      (by decide)).2.2.2.1 ⟨150, 9000⟩ (by decide) (by decide) (by decide)

/-- Membership characterization of the timeout sweep's effects: an effect is
emitted exactly for the entries that are still waiting and whose deadline
has passed, and it is either the Timeout report or the disconnect request of
that entry's session. -/
theorem notify_mem (st : IdentifyProtocolState) (now : Nat) (a : Effect) :
    a ∈ IdentifyProtocol.notify st now ↔
      ∃ p ∈ st.remote_infos, p.2.has_received = false ∧
        p.2.connected_at + p.2.timeout ≤ now ∧
        (a = .misbehaveReport p.1 .Timeout ∨ a = .disconnect p.1) := by
  unfold IdentifyProtocol.notify
  rw [List.mem_flatMap]
  constructor
  · rintro ⟨p, hp, ha⟩
    by_cases hc :
        (!p.2.has_received && decide (p.2.connected_at + p.2.timeout ≤ now)) = true
    · rw [if_pos hc] at ha
      simp only [Bool.and_eq_true, Bool.not_eq_eq_eq_not, Bool.not_true,
        decide_eq_true_eq] at hc
      simp only [IdentifyCallback.misbehave, MisbehaveResult.is_disconnect,
        List.cons_append, List.nil_append, if_true, List.mem_cons,
        List.not_mem_nil, or_false] at ha
      exact ⟨p, hp, hc.1, hc.2, ha⟩
    · rw [if_neg hc] at ha
      simp at ha
  · rintro ⟨p, hp, h1, h2, ha⟩
    refine ⟨p, hp, ?_⟩
    rw [if_pos (by simp [h1, h2])]
    simp only [IdentifyCallback.misbehave, MisbehaveResult.is_disconnect,
      List.cons_append, List.nil_append, if_true, List.mem_cons,
      List.not_mem_nil, or_false]
    exact ha

/-- C5: at a sweep tick at instant `now`, exactly the sessions whose
`has_received` flag is still false and whose `connected_at + timeout` has
elapsed are reported as Timeout misbehavior and disconnected under the
default policy; a session that has received its identify payload, or whose
deadline has not passed, is neither reported nor disconnected.  The timeout
installed on connect is `DEFAULT_TIMEOUT = 8` seconds and the sweep runs
every `CHECK_TIMEOUT_INTERVAL = 1` second. -/
theorem claim_C5_timeout_sweep (st : IdentifyProtocolState) (now : Nat)
    (sid : SessionId) :
    ((Effect.misbehaveReport sid .Timeout ∈ IdentifyProtocol.notify st now) ↔
      ∃ info, (sid, info) ∈ st.remote_infos ∧ info.has_received = false ∧
        info.connected_at + info.timeout ≤ now) ∧
    ((Effect.disconnect sid ∈ IdentifyProtocol.notify st now) ↔
      ∃ info, (sid, info) ∈ st.remote_infos ∧ info.has_received = false ∧
        info.connected_at + info.timeout ≤ now) ∧
    (∀ env ty addr now0 version,
      findInfo ((IdentifyProtocol.connected env st sid ty addr now0
          version).1).remote_infos sid =
        some (RemoteInfo.new ty addr now0 DEFAULT_TIMEOUT)) ∧
    DEFAULT_TIMEOUT = 8 ∧ CHECK_TIMEOUT_INTERVAL = 1 := by
  refine ⟨?_, ?_, ?_, rfl, rfl⟩
  · rw [notify_mem]
    constructor
    · rintro ⟨⟨k, info⟩, hp, h1, h2, (heq | heq)⟩
      · simp only [Effect.misbehaveReport.injEq] at heq
        obtain ⟨hsk, -⟩ := heq
        subst hsk
        exact ⟨info, hp, h1, h2⟩
      · cases heq
    · rintro ⟨info, hmem, h1, h2⟩
      exact ⟨(sid, info), hmem, h1, h2, Or.inl rfl⟩
  · rw [notify_mem]
    constructor
    · rintro ⟨⟨k, info⟩, hp, h1, h2, (heq | heq)⟩
      · cases heq
      · simp only [Effect.disconnect.injEq] at heq
        subst heq
        exact ⟨info, hp, h1, h2⟩
    · rintro ⟨info, hmem, h1, h2⟩
      exact ⟨(sid, info), hmem, h1, h2, Or.inr rfl⟩
  · intro env ty addr now0 version
    simp [IdentifyProtocol.connected, findInfo]

/-- C10: when a received payload fails to decode, the handshake state is
left unchanged — the session's RemoteInfo entry stays in the map with its
`has_received` flag untouched — and the only effects are an InvalidData
misbehavior report followed by the default policy's disconnect request; a
later valid payload is still handled as the session's first receipt. -/
theorem claim_C10_decode_failure (env : NetEnv) (idf : Identify)
    (st : IdentifyProtocolState) (sid : SessionId) (ty : SessionType)
    (address : Multiaddr) (info : RemoteInfo)
    (h : findInfo st.remote_infos sid = some info) :
    IdentifyProtocol.received env idf st sid ty address none =
      some (st, [.misbehaveReport sid .InvalidData, .disconnect sid]) ∧
    (info.has_received = false →
      check_duplicate st sid =
        some (.Continue, [],
          { st with remote_infos := setReceived st.remote_infos sid })) := by
  constructor
  · simp [IdentifyProtocol.received, h, IdentifyCallback.misbehave, discIf,
      MisbehaveResult.is_disconnect]
  · intro hf
    simp [check_duplicate, h, hf]

/-- Witness for C10: a malformed payload on the fresh session `7` reports
InvalidData and disconnects, leaving the state unchanged, and the next
valid payload still passes the duplicate check. -/
theorem claim_C10_decode_failure_witness :
    IdentifyProtocol.received env0 idf0 st_fresh 7 .outbound addr_remote none =
      some (st_fresh, [.misbehaveReport 7 .InvalidData, .disconnect 7]) ∧
    check_duplicate st_fresh 7 =
      some (.Continue, [],
        { st_fresh with remote_infos := setReceived st_fresh.remote_infos 7 }) := by
  have h := claim_C10_decode_failure env0 idf0 st_fresh 7 .outbound addr_remote
    info_fresh (by decide)
  exact ⟨h.1, h.2 (by decide)⟩

/-- Number of disconnect requests for `sid` in an effect trace. -/
def countDisconnects (effs : List Effect) (sid : SessionId) : Nat :=
  effs.countP fun e => e == Effect.disconnect sid

/-- `countDisconnects` distributes over concatenation. -/
theorem countDisconnects_append (l1 l2 : List Effect) (sid : SessionId) :
    countDisconnects (l1 ++ l2) sid =
      countDisconnects l1 sid + countDisconnects l2 sid := by
  simp [countDisconnects, List.countP_append]

/-- The post-check disconnect request contributes one disconnect exactly
when the verdict was Disconnect. -/
theorem countDisconnects_discIf (r : MisbehaveResult) (sid : SessionId) :
    countDisconnects (discIf r sid) sid =
      if r.is_disconnect then 1 else 0 := by
  cases r <;>
    simp [countDisconnects, discIf, MisbehaveResult.is_disconnect,
      List.countP_cons]

/-- The duplicate check's own effects never contain a disconnect request. -/
theorem check_duplicate_no_disconnect (st : IdentifyProtocolState)
    (sid : SessionId) (r : MisbehaveResult) (e : List Effect)
    (st1 : IdentifyProtocolState)
    (h : check_duplicate st sid = some (r, e, st1)) (sid' : SessionId) :
    countDisconnects e sid' = 0 := by
  unfold check_duplicate at h
  cases hf : findInfo st.remote_infos sid with
  | none =>
    rw [hf] at h
    cases h
  | some info =>
    rw [hf] at h
    by_cases hr : info.has_received
    · simp [hr, IdentifyCallback.misbehave] at h
      obtain ⟨-, he, -⟩ := h
      subst he
      simp [countDisconnects, List.countP_cons, beq_iff_eq]
    · simp [hr] at h
      obtain ⟨-, he, -⟩ := h
      subst he
      rfl

/-- The identify-verification step's effects never contain a disconnect
request. -/
theorem received_identify_no_disconnect (env : NetEnv) (idf : Identify)
    (sid : SessionId) (ty : SessionType) (addr : Multiaddr)
    (data : Option IdentifyReaderData) (sid' : SessionId) :
    countDisconnects
      (IdentifyCallback.received_identify env idf sid ty addr data).2 sid' = 0 := by
  unfold IdentifyCallback.received_identify
  cases hv : idf.verify data with
  | none => simp [countDisconnects, List.countP_cons, beq_iff_eq]
  | some out =>
    obtain ⟨flags, cv⟩ := out
    cases ty with
    | inbound =>
      simp [SessionType.is_outbound, countDisconnects, List.countP_cons,
        beq_iff_eq]
    | outbound =>
      by_cases hf : env.is_feeler addr
      · simp [SessionType.is_outbound, hf, countDisconnects,
          List.countP_cons, beq_iff_eq]
      · by_cases hc : flags.contains idf.flags
        · simp [SessionType.is_outbound, hf, hc, countDisconnects,
            List.countP_cons, beq_iff_eq]
        · simp [SessionType.is_outbound, hf, hc, countDisconnects]

/-- The listen-address step's effects never contain a disconnect request. -/
theorem process_listens_no_disconnect (env : NetEnv)
    (st : IdentifyProtocolState) (sid : SessionId) (listens : List Multiaddr)
    (r : MisbehaveResult) (e : List Effect)
    (h : process_listens env st sid listens = some (r, e))
    (sid' : SessionId) : countDisconnects e sid' = 0 := by
  unfold process_listens at h
  cases hf : findInfo st.remote_infos sid with
  | none =>
    rw [hf] at h
    cases h
  | some info =>
    rw [hf] at h
    by_cases hl : listens.length > MAX_ADDRS
    · simp [hl, IdentifyCallback.misbehave] at h
      obtain ⟨-, he⟩ := h
      subst he
      simp [countDisconnects, List.countP_cons, beq_iff_eq]
    · simp [hl] at h
      obtain ⟨-, he⟩ := h
      subst he
      simp [countDisconnects, List.countP_cons, beq_iff_eq]

/-- The observed-address step's effects never contain a disconnect
request. -/
theorem process_observed_no_disconnect (env : NetEnv)
    (st : IdentifyProtocolState) (sid : SessionId) (observed : Multiaddr)
    (r : MisbehaveResult) (e : List Effect)
    (h : process_observed env st sid observed = some (r, e))
    (sid' : SessionId) : countDisconnects e sid' = 0 := by
  unfold process_observed at h
  cases hf : findInfo st.remote_infos sid with
  | none =>
    rw [hf] at h
    cases h
  | some info =>
    rw [hf] at h
    cases hma : multiaddr_to_socketaddr observed with
    | none =>
      rw [hma] at h
      simp at h
      obtain ⟨-, he⟩ := h
      subst he
      rfl
    | some sa =>
      rw [hma] at h
      by_cases hg : (!st.global_ip_only || env.is_reachable sa.ip) = true
      · simp only [hg, if_true] at h
        rcases add_observed_addr_cases env observed info.ty with hc | hc <;>
          rw [hc] at h <;> simp at h <;> obtain ⟨-, he⟩ := h <;> subst he <;>
          simp [countDisconnects, List.countP_cons, beq_iff_eq]
      · simp [hg] at h
        obtain ⟨-, he⟩ := h
        subst he
        rfl

/-- C2: on a successfully decoded payload, all four checks (duplicate,
identify verification, listen-address processing, observed-address
processing) are evaluated and their effects applied in that order even when
an earlier check's verdict is Disconnect, and a disconnect request is
issued once per check whose verdict is Disconnect — so the trace carries as
many disconnect requests as there are failing checks. -/
theorem claim_C2_all_checks_run (env : NetEnv) (idf : Identify)
    (st : IdentifyProtocolState) (sid : SessionId) (ty : SessionType)
    (address : Multiaddr) (message : IdentifyMessage)
    (r1 r2 r3 r4 : MisbehaveResult) (e1 e2 e3 e4 : List Effect)
    (st1 : IdentifyProtocolState)
    (h1 : check_duplicate st sid = some (r1, e1, st1))
    (h2 : IdentifyCallback.received_identify env idf sid ty address
        message.identify = (r2, e2))
    (h3 : process_listens env st1 sid message.listen_addrs = some (r3, e3))
    (h4 : process_observed env st1 sid message.observed_addr = some (r4, e4)) :
    IdentifyProtocol.received env idf st sid ty address (some message) =
      some (st1,
        e1 ++ discIf r1 sid ++ e2 ++ discIf r2 sid ++
        e3 ++ discIf r3 sid ++ e4 ++ discIf r4 sid) ∧
    countDisconnects
        (e1 ++ discIf r1 sid ++ e2 ++ discIf r2 sid ++
         e3 ++ discIf r3 sid ++ e4 ++ discIf r4 sid) sid =
      [r1, r2, r3, r4].countP MisbehaveResult.is_disconnect := by
  constructor
  · simp [IdentifyProtocol.received, h1, h2, h3, h4]
  · have c1 := check_duplicate_no_disconnect st sid r1 e1 st1 h1 sid
    have c2 : countDisconnects e2 sid = 0 := by
      have hx := received_identify_no_disconnect env idf sid ty address
        message.identify sid
      rw [h2] at hx
      exact hx
    have c3 := process_listens_no_disconnect env st1 sid
      message.listen_addrs r3 e3 h3 sid
    have c4 := process_observed_no_disconnect env st1 sid
      message.observed_addr r4 e4 h4 sid
    cases r1 <;> cases r2 <;> cases r3 <;> cases r4 <;>
      simp [countDisconnects_append, c1, c2, c3, c4, countDisconnects_discIf,
        MisbehaveResult.is_disconnect, List.countP_cons]

/-- The adversarial message used by the C2 witness: wrong network name,
eleven listen addresses, unreachable observed address. -/
def msg0 : IdentifyMessage :=
  { listen_addrs := listens11,
    observed_addr := [.ip 5, .tcp 1],
    identify := some ⟨some "/other/net", 1, some "v"⟩ }

/-- Witness for C2: on session `7` (already past its first receipt) the
duplicate, identify-verification and listen-address checks all fail, the
observed-address check still runs, and three disconnect requests are
issued in one receive event. -/
theorem claim_C2_all_checks_run_witness :
    IdentifyProtocol.received env0 idf0 st_recvd 7 .outbound addr_remote
        (some msg0) =
      some (st_recvd,
        [.misbehaveReport 7 .DuplicateReceived, .disconnect 7,
         .banSession 7 BAN_ON_NOT_SAME_NET
           "The nodes are not on the same network", .disconnect 7,
         .misbehaveReport 7 (.TooManyAddresses 11), .disconnect 7]) ∧
    countDisconnects
        [Effect.misbehaveReport 7 .DuplicateReceived, .disconnect 7,
         .banSession 7 BAN_ON_NOT_SAME_NET
           "The nodes are not on the same network", .disconnect 7,
         .misbehaveReport 7 (.TooManyAddresses 11), .disconnect 7] 7 = 3 := by
  have h := claim_C2_all_checks_run env0 idf0 st_recvd 7 .outbound addr_remote
    msg0 .Disconnect .Disconnect .Disconnect .Continue
    [.misbehaveReport 7 .DuplicateReceived]
    [.banSession 7 BAN_ON_NOT_SAME_NET "The nodes are not on the same network"]
    [.misbehaveReport 7 (.TooManyAddresses 11)] [] st_recvd
    (by decide) (by decide) (by decide) (by decide)
  constructor
  · exact h.1.trans (by decide)
  · have he :
        ([Effect.misbehaveReport 7 .DuplicateReceived] ++ discIf .Disconnect 7 ++
         [Effect.banSession 7 BAN_ON_NOT_SAME_NET
           "The nodes are not on the same network"] ++ discIf .Disconnect 7 ++
         [Effect.misbehaveReport 7 (.TooManyAddresses 11)] ++
         discIf .Disconnect 7 ++ [] ++ discIf .Continue 7) =
        [Effect.misbehaveReport 7 .DuplicateReceived, .disconnect 7,
         .banSession 7 BAN_ON_NOT_SAME_NET
           "The nodes are not on the same network", .disconnect 7,
         .misbehaveReport 7 (.TooManyAddresses 11), .disconnect 7] := by
      decide
    have h2 := h.2
    rw [he] at h2
    exact h2.trans (by decide)

end CkbNetwork
